import Mathlib

/-!
Verification development for the qobuz-proxy renderer.

The definitions below are shallow embeddings of the Python sources:
`qobuz_proxy/connect/protocol.py`, `qobuz_proxy_w_history/playback/queue.py`,
`qobuz_proxy_w_history/playback/player.py`, `qobuz_proxy/playback/metadata.py`,
`qobuz_proxy/backends/dlna/proxy_server.py`,
`qobuz_proxy_w_history/backends/dlna/capabilities.py`, and
`qobuz_proxy/playback/command_handler.py`.

Conventions: Python byte strings are `List Nat` (each element a byte value);
bitwise `x & 0x7F` on a byte is translated as `x % 128`, `x >> 7` as
`x / 128`, and the continuation-bit test `x & 0x80 == 0` as `x < 128`
(these agree on all byte values). Clock reads (`time.time()`) are passed
as explicit arguments.
-/

/-- Byte strings (Python `bytes`) as lists of byte values. -/
abbrev Bytes := List Nat

namespace Protocol

/-- Auxiliary varint encoder with explicit fuel; `varintEncode` supplies
fuel `n`, which always suffices because the argument shrinks by `/ 128`
every step. Mirrors the loop in `ProtocolCodec._pack_frame`:
while `length > 0x7F` emit `(length & 0x7F) | 0x80` and shift right by 7,
then emit the final low 7 bits. -/
def varintEncodeAux : Nat → Nat → List Nat
  | 0, n => [n % 128]
  | fuel + 1, n => if n > 127 then (n % 128 + 128) :: varintEncodeAux fuel (n / 128) else [n]

/-- Base-128 little-endian varint encoding of a length, as produced by
`ProtocolCodec._pack_frame`. -/
def varintEncode (n : Nat) : List Nat := varintEncodeAux n n

/-- Wire frame `[type: 1 byte][length: varint][data: N bytes]` built by
`ProtocolCodec._pack_frame`. -/
def packFrame (msgTypeByte : Nat) (data : Bytes) : Bytes :=
  msgTypeByte :: (varintEncode data.length ++ data)

/-- Varint decoding loop of `ProtocolCodec._decode_varint`, operating on the
remaining input; returns the decoded value and the bytes after the varint,
or `none` when the input ends inside the varint. The accumulation
`value |= (byte & 0x7F) << shift` is written as addition, which agrees with
bitwise or here because each group of 7 bits lands in a fresh bit range. -/
def pNatAux : Bytes → Nat → Nat → Option (Nat × Bytes)
  | [], _, _ => none
  | b :: rest, shift, acc =>
    let acc' := acc + b % 128 * 2 ^ shift
    if b < 128 then some (acc', rest) else pNatAux rest (shift + 7) acc'

/-- Decode one varint from the front of the input. -/
def pNat (l : Bytes) : Option (Nat × Bytes) := pNatAux l 0 0

/-- Length-prefixed byte string field: varint length then that many bytes. -/
def bytesEnc (b : Bytes) : Bytes := varintEncode b.length ++ b

/-- Decode a length-prefixed byte string field; fails when the input is
shorter than the declared length. -/
def pBytes (l : Bytes) : Option (Bytes × Bytes) :=
  match pNat l with
  | none => none
  | some (n, rest) => if n ≤ rest.length then some (rest.take n, rest.drop n) else none

/-- Repeated byte-string field: varint count then each element
length-prefixed. -/
def listEnc (bs : List Bytes) : Bytes :=
  varintEncode bs.length ++ (bs.map bytesEnc).flatten

/-- Decode `count` length-prefixed byte strings. -/
def pBytesListAux : Nat → Bytes → Option (List Bytes × Bytes)
  | 0, l => some ([], l)
  | count + 1, l =>
    match pBytes l with
    | none => none
    | some (b, rest) =>
      match pBytesListAux count rest with
      | none => none
      | some (bs, rest') => some (b :: bs, rest')

/-- Decode a repeated byte-string field. -/
def pBytesList (l : Bytes) : Option (List Bytes × Bytes) :=
  match pNat l with
  | none => none
  | some (n, rest) => pBytesListAux n rest

/-- Outer envelope message types (`MessageType` in protocol.py). -/
inductive MessageType
  | authenticate
  | subscribe
  | unsubscribe
  | payload
  | error
  | disconnect
deriving DecidableEq, Repr

/-- Numeric wire codes: AUTHENTICATE=1, SUBSCRIBE=2, UNSUBSCRIBE=3,
PAYLOAD=6, ERROR=9, DISCONNECT=10. -/
def MessageType.toByte : MessageType → Nat
  | .authenticate => 1
  | .subscribe => 2
  | .unsubscribe => 3
  | .payload => 6
  | .error => 9
  | .disconnect => 10

/-- Inverse of the `MessageType(data[0])` constructor call in
`decode_frame`; `none` models the `ValueError` branch. -/
def msgTypeOfByte (b : Nat) : Option MessageType :=
  if b = 1 then some .authenticate
  else if b = 2 then some .subscribe
  else if b = 3 then some .unsubscribe
  else if b = 6 then some .payload
  else if b = 9 then some .error
  else if b = 10 then some .disconnect
  else none

/-- Modelled from the spec: the vendor protobuf message
`envelope_pb2.Authenticate` (fields `msgId`, `msgDate`, `jwt`); the compiled
protobuf modules are not in the repository source, so its byte layout is
modelled as a fixed-order field encoding with a parser that inverts it. -/
structure AuthenticateMsg where
  msgId : Nat
  msgDate : Nat
  jwt : Bytes
deriving DecidableEq, Repr

/-- Modelled from the spec: serialization of `Authenticate`. -/
def AuthenticateMsg.serialize (m : AuthenticateMsg) : Bytes :=
  varintEncode m.msgId ++ varintEncode m.msgDate ++ bytesEnc m.jwt

/-- Modelled from the spec: structured parsing of `Authenticate`; fails on
malformed input, exactly inverting `serialize`. -/
def AuthenticateMsg.parse (l : Bytes) : Option AuthenticateMsg :=
  match pNat l with
  | none => none
  | some (msgId, l1) =>
    match pNat l1 with
    | none => none
    | some (msgDate, l2) =>
      match pBytes l2 with
      | none => none
      | some (jwt, l3) =>
        if l3 = [] then some ⟨msgId, msgDate, jwt⟩ else none

/-- Modelled from the spec: the vendor protobuf message
`envelope_pb2.Subscribe` (fields `msgId`, `msgDate`, `proto`, `channels`). -/
structure SubscribeMsg where
  msgId : Nat
  msgDate : Nat
  proto : Nat
  channels : List Bytes
deriving DecidableEq, Repr

/-- Modelled from the spec: serialization of `Subscribe`. -/
def SubscribeMsg.serialize (m : SubscribeMsg) : Bytes :=
  varintEncode m.msgId ++ varintEncode m.msgDate ++ varintEncode m.proto ++ listEnc m.channels

/-- Modelled from the spec: structured parsing of `Subscribe`. -/
def SubscribeMsg.parse (l : Bytes) : Option SubscribeMsg :=
  match pNat l with
  | none => none
  | some (msgId, l1) =>
    match pNat l1 with
    | none => none
    | some (msgDate, l2) =>
      match pNat l2 with
      | none => none
      | some (proto, l3) =>
        match pBytesList l3 with
        | none => none
        | some (channels, l4) =>
          if l4 = [] then some ⟨msgId, msgDate, proto, channels⟩ else none

/-- Modelled from the spec: the vendor protobuf message
`envelope_pb2.Payload` (fields `msgId`, `msgDate`, `proto`, `src`, `dests`,
`payload`). -/
structure PayloadMsg where
  msgId : Nat
  msgDate : Nat
  proto : Nat
  src : Bytes
  dests : List Bytes
  payload : Bytes
deriving DecidableEq, Repr

/-- Modelled from the spec: serialization of `Payload`. -/
def PayloadMsg.serialize (m : PayloadMsg) : Bytes :=
  varintEncode m.msgId ++ varintEncode m.msgDate ++ varintEncode m.proto ++
    bytesEnc m.src ++ listEnc m.dests ++ bytesEnc m.payload

/-- Modelled from the spec: structured parsing of `Payload`. -/
def PayloadMsg.parse (l : Bytes) : Option PayloadMsg :=
  match pNat l with
  | none => none
  | some (msgId, l1) =>
    match pNat l1 with
    | none => none
    | some (msgDate, l2) =>
      match pNat l2 with
      | none => none
      | some (proto, l3) =>
        match pBytes l3 with
        | none => none
        | some (src, l4) =>
          match pBytesList l4 with
          | none => none
          | some (dests, l5) =>
            match pBytes l5 with
            | none => none
            | some (payload, l6) =>
              if l6 = [] then some ⟨msgId, msgDate, proto, src, dests, payload⟩ else none

/-- Modelled from the spec: the vendor protobuf message
`envelope_pb2.Error` (fields `msgId`, `code`, `message`). -/
structure ErrorMsg where
  msgId : Nat
  code : Nat
  message : Bytes
deriving DecidableEq, Repr

/-- Modelled from the spec: serialization of `Error`. -/
def ErrorMsg.serialize (m : ErrorMsg) : Bytes :=
  varintEncode m.msgId ++ varintEncode m.code ++ bytesEnc m.message

/-- Modelled from the spec: structured parsing of `Error`. -/
def ErrorMsg.parse (l : Bytes) : Option ErrorMsg :=
  match pNat l with
  | none => none
  | some (msgId, l1) =>
    match pNat l1 with
    | none => none
    | some (code, l2) =>
      match pBytes l2 with
      | none => none
      | some (message, l3) =>
        if l3 = [] then some ⟨msgId, code, message⟩ else none

/-- Modelled from the spec: the vendor protobuf message
`envelope_pb2.Disconnect` (field `msgId`). -/
structure DisconnectMsg where
  msgId : Nat
deriving DecidableEq, Repr

/-- Modelled from the spec: serialization of `Disconnect`. -/
def DisconnectMsg.serialize (m : DisconnectMsg) : Bytes :=
  varintEncode m.msgId

/-- Modelled from the spec: structured parsing of `Disconnect`. -/
def DisconnectMsg.parse (l : Bytes) : Option DisconnectMsg :=
  match pNat l with
  | none => none
  | some (msgId, l1) => if l1 = [] then some ⟨msgId⟩ else none

/-- Decoded WebSocket message (`DecodedMessage` dataclass), with its
Python default field values. -/
structure DecodedMessage where
  msgType : MessageType
  msgId : Nat := 0
  msgDate : Nat := 0
  payload : Option Bytes := none
  errorCode : Nat := 0
  errorMessage : Bytes := []
deriving DecidableEq, Repr

/-- Codec state: the device UUID passed to the constructor plus the
`_msg_counter` used by `_next_msg_id`. -/
structure Codec where
  deviceUuid : Bytes
  msgCounter : Nat
deriving DecidableEq, Repr

/-- The `_next_msg_id` method: increments the counter and returns it. -/
def nextMsgId (c : Codec) : Nat × Codec :=
  (c.msgCounter + 1, { c with msgCounter := c.msgCounter + 1 })

/-- Quality-ID to protocol-value mapping `QUALITY_TO_PROTOCOL`
(5 ↦ 1, 6 ↦ 2, 7 ↦ 3, 27 ↦ 4). -/
def qualityToProtocol (q : Nat) : Option Nat :=
  if q = 5 then some 1
  else if q = 6 then some 2
  else if q = 7 then some 3
  else if q = 27 then some 4
  else none

/-- Default `(sample_rate, bit_depth, nb_channels)` per quality
(`QUALITY_AUDIO_PROPERTIES`), with the dict-get default `(44100, 16, 2)`. -/
def qualityAudioProperties (q : Nat) : Nat × Nat × Nat :=
  if q = 5 then (44100, 16, 2)
  else if q = 6 then (44100, 16, 2)
  else if q = 7 then (96000, 24, 2)
  else if q = 27 then (192000, 24, 2)
  else (44100, 16, 2)

/-- The `encode_authenticate` method: build an `Authenticate` envelope with
the next msg id and the current time and pack it as an AUTHENTICATE frame. -/
def encode_authenticate (c : Codec) (nowMs : Nat) (jwt : Bytes) : Bytes × Codec :=
  let (mid, c') := nextMsgId c
  (packFrame MessageType.authenticate.toByte (AuthenticateMsg.serialize ⟨mid, nowMs, jwt⟩), c')

/-- The `encode_subscribe` method: `proto = QP_QCONNECT = 1`, one channel. -/
def encode_subscribe (c : Codec) (nowMs : Nat) (sessionUuid : Bytes) : Bytes × Codec :=
  let (mid, c') := nextMsgId c
  (packFrame MessageType.subscribe.toByte
    (SubscribeMsg.serialize ⟨mid, nowMs, 1, [sessionUuid]⟩), c')

/-- The `encode_payload` method: wrap an inner payload in a `Payload`
envelope (`proto = 1`, `src = device_uuid`) and pack it as a PAYLOAD
frame. -/
def encode_payload (c : Codec) (nowMs : Nat) (innerPayload : Bytes)
    (destChannels : List Bytes) : Bytes × Codec :=
  let (mid, c') := nextMsgId c
  (packFrame MessageType.payload.toByte
    (PayloadMsg.serialize ⟨mid, nowMs, 1, c.deviceUuid, destChannels, innerPayload⟩), c')

/-- Modelled from the spec: one inner QConnect message
(`payload_pb2.QConnectMessage`), a `messageType` tag plus the serialized
submessage body; the compiled protobuf modules are not in the repository
source. -/
structure QConnectMessage where
  messageType : Nat
  body : Bytes
deriving DecidableEq, Repr

/-- Modelled from the spec: serialization of a `QConnectMessage`. -/
def QConnectMessage.serialize (m : QConnectMessage) : Bytes :=
  varintEncode m.messageType ++ bytesEnc m.body

/-- Modelled from the spec: the inner batch `payload_pb2.QConnectBatch`
(fields `messagesTime`, `messagesId`, `messages`). -/
structure QConnectBatch where
  messagesTime : Nat
  messagesId : Nat
  messages : List QConnectMessage
deriving DecidableEq, Repr

/-- Modelled from the spec: serialization of a `QConnectBatch`. -/
def QConnectBatch.serialize (b : QConnectBatch) : Bytes :=
  varintEncode b.messagesTime ++ varintEncode b.messagesId ++
    (b.messages.map (fun m => bytesEnc m.serialize)).flatten

/-- The `encode_state_update` method: build the inner state message
(type 23), wrap it in a batch whose `messagesId` is drawn from
`_next_msg_id`, then delegate to `encode_payload` (which draws another
msg id for the outer envelope). -/
def encode_state_update (c : Codec) (nowMs : Nat)
    (playingState bufferState positionMs durationMs queueItemId
      queueVersionMajor queueVersionMinor : Nat) : Bytes × Codec :=
  let stateBody : Bytes :=
    varintEncode playingState ++ varintEncode bufferState ++
      varintEncode nowMs ++ varintEncode positionMs ++
      varintEncode durationMs ++ varintEncode queueItemId ++
      varintEncode queueVersionMajor ++ varintEncode queueVersionMinor
  let (bid, c1) := nextMsgId c
  let batch : QConnectBatch := ⟨nowMs, bid, [⟨23, stateBody⟩]⟩
  encode_payload c1 nowMs batch.serialize []

/-- The `encode_join_session` method: inner JoinSession message (type 21)
with the device info and `maxAudioQuality` mapped through
`QUALITY_TO_PROTOCOL` (default 4), batch id from `_next_msg_id`, then
`encode_payload`. -/
def encode_join_session (c : Codec) (nowMs : Nat) (deviceUuid friendlyName sessionUuid : Bytes)
    (maxAudioQuality : Nat) : Bytes × Codec :=
  let protoQuality := (qualityToProtocol maxAudioQuality).getD 4
  let joinBody : Bytes :=
    bytesEnc deviceUuid ++ bytesEnc friendlyName ++ varintEncode protoQuality ++
      bytesEnc sessionUuid ++ varintEncode 1
  let (bid, c1) := nextMsgId c
  let batch : QConnectBatch := ⟨nowMs, bid, [⟨21, joinBody⟩]⟩
  encode_payload c1 nowMs batch.serialize []

/-- The `encode_volume_changed` method: inner volume message (type 25),
batch id from `_next_msg_id`, then `encode_payload`. -/
def encode_volume_changed (c : Codec) (nowMs : Nat) (volume : Nat) : Bytes × Codec :=
  let (bid, c1) := nextMsgId c
  let batch : QConnectBatch := ⟨nowMs, bid, [⟨25, varintEncode volume⟩]⟩
  encode_payload c1 nowMs batch.serialize []

/-- The `encode_file_audio_quality_changed` method (inner type 26): zero
sample-rate/bit-depth/channel arguments fall back to the per-quality
defaults (Python `x or default`). -/
def encode_file_audio_quality_changed (c : Codec) (nowMs : Nat)
    (quality samplingRate bitDepth nbChannels : Nat) : Bytes × Codec :=
  let protoQuality := (qualityToProtocol quality).getD 4
  let d := qualityAudioProperties quality
  let sr := if samplingRate = 0 then d.1 else samplingRate
  let bd := if bitDepth = 0 then d.2.1 else bitDepth
  let ch := if nbChannels = 0 then d.2.2 else nbChannels
  let body : Bytes :=
    varintEncode sr ++ varintEncode bd ++ varintEncode ch ++ varintEncode protoQuality
  let (bid, c1) := nextMsgId c
  let batch : QConnectBatch := ⟨nowMs, bid, [⟨26, body⟩]⟩
  encode_payload c1 nowMs batch.serialize []

/-- The `encode_device_audio_quality_changed` method (inner type 27). -/
def encode_device_audio_quality_changed (c : Codec) (nowMs : Nat)
    (quality samplingRate bitDepth nbChannels : Nat) : Bytes × Codec :=
  let d := qualityAudioProperties quality
  let sr := if samplingRate = 0 then d.1 else samplingRate
  let bd := if bitDepth = 0 then d.2.1 else bitDepth
  let ch := if nbChannels = 0 then d.2.2 else nbChannels
  let body : Bytes := varintEncode sr ++ varintEncode bd ++ varintEncode ch
  let (bid, c1) := nextMsgId c
  let batch : QConnectBatch := ⟨nowMs, bid, [⟨27, body⟩]⟩
  encode_payload c1 nowMs batch.serialize []

/-- The `encode_max_audio_quality_changed` method (inner type 28). -/
def encode_max_audio_quality_changed (c : Codec) (nowMs : Nat)
    (quality networkType : Nat) : Bytes × Codec :=
  let protoQuality := (qualityToProtocol quality).getD 4
  let body : Bytes := varintEncode protoQuality ++ varintEncode networkType
  let (bid, c1) := nextMsgId c
  let batch : QConnectBatch := ⟨nowMs, bid, [⟨28, body⟩]⟩
  encode_payload c1 nowMs batch.serialize []

/-- The `_decode_by_type` method: only PAYLOAD, ERROR and DISCONNECT bodies
are parsed; parse failures are caught and logged, so a `DecodedMessage`
with default field values is returned in every case (never a failure). -/
def decode_by_type (msgType : MessageType) (payload : Bytes) : DecodedMessage :=
  match msgType with
  | .payload =>
    match PayloadMsg.parse payload with
    | some m => { msgType, msgId := m.msgId, msgDate := m.msgDate, payload := some m.payload }
    | none => { msgType }
  | .error =>
    match ErrorMsg.parse payload with
    | some m => { msgType, msgId := m.msgId, errorCode := m.code, errorMessage := m.message }
    | none => { msgType }
  | .disconnect =>
    match DisconnectMsg.parse payload with
    | some m => { msgType, msgId := m.msgId }
    | none => { msgType }
  | _ => { msgType }

/-- The `decode_frame` method: reject inputs shorter than 2 bytes, unknown
type bytes and incomplete length varints; then slice the body
(`data[offset : offset + length]`, which silently truncates) and dispatch
to `_decode_by_type`. -/
def decode_frame (data : Bytes) : Option DecodedMessage :=
  if data.length < 2 then none
  else
    match msgTypeOfByte (data.headD 0) with
    | none => none
    | some msgType =>
      match pNat (data.drop 1) with
      | none => none
      | some (length, rest) => some (decode_by_type msgType (rest.take length))

/-- Observer reading the `msg_id` field actually carried in a wire frame:
front-end of `decode_frame` (type byte, varint length, body slice) followed
by the structured parser of the frame's own envelope type. -/
def frameMsgId (data : Bytes) : Option Nat :=
  if data.length < 2 then none
  else
    match msgTypeOfByte (data.headD 0) with
    | none => none
    | some msgType =>
      match pNat (data.drop 1) with
      | none => none
      | some (length, rest) =>
        let body := rest.take length
        match msgType with
        | .authenticate => (AuthenticateMsg.parse body).map (·.msgId)
        | .subscribe => (SubscribeMsg.parse body).map (·.msgId)
        | .payload => (PayloadMsg.parse body).map (·.msgId)
        | .error => (ErrorMsg.parse body).map (·.msgId)
        | .disconnect => (DisconnectMsg.parse body).map (·.msgId)
        | .unsubscribe => none

/-- One call to any of the codec's encode methods, with its arguments. -/
inductive EncodeCall
  | authenticate (jwt : Bytes)
  | subscribe (sessionUuid : Bytes)
  | payloadCall (innerPayload : Bytes) (destChannels : List Bytes)
  | stateUpdate (playingState bufferState positionMs durationMs queueItemId vMajor vMinor : Nat)
  | joinSession (deviceUuid friendlyName sessionUuid : Bytes) (maxAudioQuality : Nat)
  | volumeChanged (volume : Nat)
  | fileAudioQualityChanged (quality samplingRate bitDepth nbChannels : Nat)
  | deviceAudioQualityChanged (quality samplingRate bitDepth nbChannels : Nat)
  | maxAudioQualityChanged (quality networkType : Nat)
deriving DecidableEq, Repr

/-- Whether the encode method builds an inner batch (and therefore draws a
batch `messagesId` from the same counter before the outer msg id). -/
def EncodeCall.isCompound : EncodeCall → Bool
  | .authenticate _ | .subscribe _ | .payloadCall _ _ => false
  | _ => true

/-- Dispatch one encode call on the codec. -/
def runCall (c : Codec) (nowMs : Nat) : EncodeCall → Bytes × Codec
  | .authenticate jwt => encode_authenticate c nowMs jwt
  | .subscribe sessionUuid => encode_subscribe c nowMs sessionUuid
  | .payloadCall innerPayload destChannels => encode_payload c nowMs innerPayload destChannels
  | .stateUpdate a b p d q vM vm => encode_state_update c nowMs a b p d q vM vm
  | .joinSession du fn su maxQ => encode_join_session c nowMs du fn su maxQ
  | .volumeChanged v => encode_volume_changed c nowMs v
  | .fileAudioQualityChanged q sr bd ch => encode_file_audio_quality_changed c nowMs q sr bd ch
  | .deviceAudioQualityChanged q sr bd ch => encode_device_audio_quality_changed c nowMs q sr bd ch
  | .maxAudioQualityChanged q nt => encode_max_audio_quality_changed c nowMs q nt

/-- Run a sequence of encode calls on one codec instance, collecting the
emitted frames. -/
def runCalls (c : Codec) (nowMs : Nat) : List EncodeCall → List Bytes × Codec
  | [] => ([], c)
  | call :: rest =>
    let (frame, c') := runCall c nowMs call
    let (frames, c'') := runCalls c' nowMs rest
    (frame :: frames, c'')

/-- The `msg_id` carried in each emitted outer frame of a call sequence. -/
def emittedOuterMsgIds (c : Codec) (nowMs : Nat) (calls : List EncodeCall) : List (Option Nat) :=
  (runCalls c nowMs calls).1.map frameMsgId

/-- Comparison definition following the spec's words, for the amended
msg-id claim: starting from a counter value, each encode call consumes one
msg id (two for the compound encoders, whose inner batch `messagesId` is
drawn from the same counter) and the outer frame carries the counter value
reached after the call. -/
def expectedOuterMsgIds (start : Nat) : List EncodeCall → List Nat
  | [] => []
  | call :: rest =>
    let next := start + (if call.isCompound then 2 else 1)
    next :: expectedOuterMsgIds next rest

end Protocol

namespace Queue

/-- Repeat modes (`RepeatMode` enum in queue.py). -/
inductive RepeatMode
  | off
  | one
  | all
deriving DecidableEq, Repr

/-- A track in the queue (`QueueTrack` dataclass). The mutable `metadata`
dict cache is not modelled; it is irrelevant to the claims below. -/
structure QueueTrack where
  queueItemId : Nat
  trackId : String
  streamingUrl : Option String := none
  startMs : Nat := 0
  durationMs : Nat := 0
deriving DecidableEq, Repr

/-- Queue state (`QobuzQueue` fields). The preload-mark set, version and
callback/lock fields are not modelled; the claims below do not touch
them. -/
structure QueueSt where
  tracks : List QueueTrack
  originalOrder : List Nat
  shuffledIndexes : List Nat
  currentIndex : Nat
  shuffleEnabled : Bool
  repeatMode : RepeatMode
deriving DecidableEq, Repr

/-- The lookup loop shared by `_set_index_by_item_id` and `_apply_shuffle`:
first index of a track with the given `queue_item_id`, or `none`. -/
def findTrackIndex : List QueueTrack → Nat → Option Nat
  | [], _ => none
  | t :: rest, itemId =>
    if t.queueItemId = itemId then some 0 else (findTrackIndex rest itemId).map (· + 1)

/-- Python tuple swap `l[i], l[j] = l[j], l[i]` on a list of indexes. -/
def listSwap (l : List Nat) (i j : Nat) : List Nat :=
  (l.set i (l.getD j 0)).set j (l.getD i 0)

/-- The `_get_current_track_index` method. -/
def getCurrentTrackIndex (st : QueueSt) : Option Nat :=
  if st.tracks.isEmpty || st.shuffledIndexes.isEmpty then none
  else st.shuffledIndexes[st.currentIndex]?

/-- The `_get_current_track` method. -/
def getCurrentTrack (st : QueueSt) : Option QueueTrack :=
  (getCurrentTrackIndex st).bind (fun k => st.tracks[k]?)

/-- The `_apply_shuffle` method. The permutation drawn by
`random.shuffle(list(range(n)))` is passed in as `perm`. When a pivot item
is given and found, the pivot's position in the drawn permutation is
swapped with `min(current_index, n - 1)`. -/
def apply_shuffle (st : QueueSt) (perm : List Nat) (pivotItemId : Option Nat) : QueueSt :=
  if st.tracks.isEmpty then st
  else
    let indexes := perm
    let indexes :=
      match pivotItemId with
      | none => indexes
      | some pid =>
        match findTrackIndex st.tracks pid with
        | none => indexes
        | some pivotTrackIndex =>
          let pivotPosition := indexes.indexOf pivotTrackIndex
          let currentPos := min st.currentIndex (indexes.length - 1)
          listSwap indexes currentPos pivotPosition
    { st with shuffledIndexes := indexes }

/-- The `_restore_original_order` method: back to the identity order, with
`current_index` moved to the natural-order index of the formerly current
track (`list.index` would raise only when that index is missing from
`range n`, which the `except ValueError` branch maps to 0). -/
def restore_original_order (st : QueueSt) : QueueSt :=
  if st.tracks.isEmpty then st
  else
    let currentTrackIndex := getCurrentTrackIndex st
    let newIndexes := List.range st.tracks.length
    match currentTrackIndex with
    | some k =>
      { st with
        shuffledIndexes := newIndexes
        currentIndex := if k ∈ newIndexes then newIndexes.indexOf k else 0 }
    | none => { st with shuffledIndexes := newIndexes }

/-- The `set_shuffle` method (preload-mark clearing not modelled). -/
def set_shuffle (st : QueueSt) (enabled : Bool) (pivotItemId : Option Nat)
    (perm : List Nat) : QueueSt :=
  let st1 := { st with shuffleEnabled := enabled }
  if enabled then apply_shuffle st1 perm pivotItemId else restore_original_order st1

/-- The `advance_to_next` method: returns the resulting track (or `none` at
the end with repeat off) together with the updated queue state. -/
def advance_to_next (st : QueueSt) : Option QueueTrack × QueueSt :=
  if st.tracks.isEmpty then (none, st)
  else if st.repeatMode = .one then (getCurrentTrack st, st)
  else
    let nextIndex := st.currentIndex + 1
    if nextIndex ≥ st.shuffledIndexes.length then
      if st.repeatMode = .all then
        let st' := { st with currentIndex := 0 }
        (getCurrentTrack st', st')
      else (none, st)
    else
      let st' := { st with currentIndex := nextIndex }
      (getCurrentTrack st', st')

/-- The `go_to_previous` method. -/
def go_to_previous (st : QueueSt) : Option QueueTrack × QueueSt :=
  if st.tracks.isEmpty then (none, st)
  else if st.repeatMode = .one then (getCurrentTrack st, st)
  else if st.currentIndex > 0 then
    let st' := { st with currentIndex := st.currentIndex - 1 }
    (getCurrentTrack st', st')
  else if st.repeatMode = .all then
    let st' := { st with currentIndex := st.shuffledIndexes.length - 1 }
    (getCurrentTrack st', st')
  else (getCurrentTrack st, st)

end Queue

namespace Player

/-- Playback states (`PlaybackState` in backends/types.py). -/
inductive PlaybackState
  | stopped
  | loading
  | playing
  | paused
  | error
deriving DecidableEq, Repr

/-- Player state relevant to seeking (`QobuzPlayer` fields `_state`,
`_current_track`, `_current_duration_ms`, `_position_timestamp_ms`,
`_position_value_ms`). Times and positions are Python ints, modelled as
`Int`. -/
structure PlayerSt where
  state : PlaybackState
  currentTrack : Option Queue.QueueTrack
  currentDurationMs : Int
  positionTimestampMs : Int
  positionValueMs : Int
deriving DecidableEq, Repr

/-- Externally visible effects of one `seek` call: the position the backend
was asked to seek to (if any) and whether an immediate state report was
sent. -/
structure SeekEffects where
  backendSeekMs : Option Int
  reportSent : Bool
deriving DecidableEq, Repr

/-- The `QobuzPlayer.seek` method. Rejects when stopped or no current
track, and also when `_current_duration_ms <= 0`; otherwise clamps to
`[0, duration - 1000]` (lower bound 0), asks the backend to seek, updates
the `(timestamp, value)` position anchor via `_set_position(clamped)` and
sends an immediate state report. `backendOk` models whether
`backend.seek` raises; on a raise the anchor is untouched, no report is
sent, and `False` is returned. -/
def seek (st : PlayerSt) (nowMs positionMs : Int) (backendOk : Bool) :
    Bool × PlayerSt × SeekEffects :=
  if st.state = .stopped || st.currentTrack.isNone then (false, st, ⟨none, false⟩)
  else if st.currentDurationMs ≤ 0 then (false, st, ⟨none, false⟩)
  else
    let maxPosition := max 0 (st.currentDurationMs - 1000)
    let clampedPosition := max 0 (min positionMs maxPosition)
    if backendOk then
      (true,
        { st with positionValueMs := clampedPosition, positionTimestampMs := nowMs },
        ⟨some clampedPosition, true⟩)
    else (false, st, ⟨some clampedPosition, false⟩)

end Player

namespace Metadata

/-- Cached track metadata (`TrackMetadata` dataclass in metadata.py). -/
structure TrackMetadata where
  trackId : String := ""
  title : String := ""
  artist : String := ""
  album : String := ""
  durationMs : Nat := 0
  artworkUrl : String := ""
  streamingUrl : String := ""
  streamingUrlExpiresAt : Nat := 0
  actualQuality : Nat := 0
deriving DecidableEq, Repr

/-- The metadata cache (`MetadataCache`): a dict keyed by track id, modelled
as an insertion-ordered association list with distinct keys. -/
structure MetadataCache where
  entries : List (String × TrackMetadata)
deriving DecidableEq, Repr

/-- The `MetadataCache.invalidate_url` method: blank the streaming URL and
its expiry for the entry with the given key, keeping everything else. -/
def invalidate_url (cache : MetadataCache) (trackId : String) : MetadataCache :=
  ⟨cache.entries.map (fun e =>
    if e.1 = trackId then (e.1, { e.2 with streamingUrl := "", streamingUrlExpiresAt := 0 })
    else e)⟩

/-- Metadata service state (`MetadataService` fields `_max_quality`,
`_cache`; the API client is external). -/
structure MetadataServiceSt where
  maxQuality : Nat
  cache : MetadataCache
deriving DecidableEq, Repr

/-- The `MetadataService.set_max_quality` method: only when the quality
actually changes, store it and call `invalidate_url` for every cached
key. -/
def set_max_quality (st : MetadataServiceSt) (quality : Nat) : MetadataServiceSt :=
  if quality ≠ st.maxQuality then
    { maxQuality := quality
      cache := (st.cache.entries.map Prod.fst).foldl invalidate_url st.cache }
  else st

end Metadata

namespace Proxy

/-- A track registered with the audio proxy (`RegisteredTrack` dataclass in
proxy_server.py). `time.time()` values are modelled as `Int` seconds. -/
structure RegisteredTrack where
  trackId : String
  qobuzUrl : String
  contentType : String
  urlFetchedAt : Int
deriving DecidableEq, Repr

/-- The `RegisteredTrack.is_url_expired` method:
`time.time() - url_fetched_at >= max_age`. -/
def is_url_expired (t : RegisteredTrack) (nowS maxAge : Int) : Bool :=
  nowS - t.urlFetchedAt ≥ maxAge

/-- Audio proxy server state (`AudioProxyServer` fields `_url_max_age` and
`_tracks`, the latter a dict modelled as an association list). -/
structure ProxyServerSt where
  urlMaxAge : Int
  tracks : List (String × RegisteredTrack)
deriving DecidableEq, Repr

/-- Response of `_handle_audio`: 404 for unknown tracks, 502 when the URL
refresh fails, otherwise the request is forwarded upstream
(`_proxy_stream`) for the given registered track. -/
inductive AudioResponse
  | notFound
  | badGateway
  | forwarded (track : RegisteredTrack)
deriving DecidableEq, Repr

/-- HTTP status carried by the response where the handler itself decides it
(the forwarded case's status comes from upstream). -/
def AudioResponse.statusCode : AudioResponse → Option Nat
  | .notFound => some 404
  | .badGateway => some 502
  | .forwarded _ => none

/-- Dict lookup `self._tracks.get(track_id)`. -/
def lookupTrack (tracks : List (String × RegisteredTrack)) (trackId : String) :
    Option RegisteredTrack :=
  (tracks.find? (fun e => e.1 = trackId)).map (·.2)

/-- The `_handle_audio` method, given the request's track id (extension
already stripped by `rsplit`). `refreshResult` models the URL provider
call: `some url` when `get_streaming_url` returns, `none` when it raises.
A fresh URL is stored together with its fetch time before forwarding. -/
def handle_audio (srv : ProxyServerSt) (nowS : Int) (trackId : String)
    (refreshResult : Option String) : AudioResponse × ProxyServerSt :=
  match lookupTrack srv.tracks trackId with
  | none => (.notFound, srv)
  | some track =>
    if is_url_expired track nowS srv.urlMaxAge then
      match refreshResult with
      | some freshUrl =>
        let track' := { track with qobuzUrl := freshUrl, urlFetchedAt := nowS }
        (.forwarded track',
          { srv with
            tracks := srv.tracks.map (fun e => if e.1 = trackId then (e.1, track') else e) })
      | none => (.badGateway, srv)
    else (.forwarded track, srv)

end Proxy

namespace Capabilities

/-- Parsed device capabilities (`DLNACapabilities` dataclass in
capabilities.py), with its Python field defaults. The `entries` list only
feeds DIDL-Lite construction and is not modelled. -/
structure DLNACapabilities where
  supportsFlac : Bool := false
  supportsMp3 : Bool := true
  maxSampleRate : Nat := 44100
  maxBitDepth : Nat := 16
deriving DecidableEq, Repr

/-- The `DLNACapabilities.max_quality` property: no FLAC gives 5
(`QOBUZ_QUALITY_MP3`); 24-bit and at least 192 kHz gives 27; 24-bit and at
least 96 kHz gives 7; otherwise 6. -/
def max_quality (caps : DLNACapabilities) : Nat :=
  if ¬caps.supportsFlac then 5
  else if caps.maxBitDepth ≥ 24 ∧ caps.maxSampleRate ≥ 192000 then 27
  else if caps.maxBitDepth ≥ 24 ∧ caps.maxSampleRate ≥ 96000 then 7
  else 6

/-- One parsed protocol-info entry as seen by the capability-accumulation
loop of `parse_protocol_info_sink`: its normalized mime type and the
sample rate / bit depth left after format-parameter and profile-hint
resolution. The entry fields range over all values, so every possible
parse of a Sink string is covered. -/
structure SinkEntry where
  mime : String
  sampleRate : Option Nat
  bitDepth : Option Nat
deriving DecidableEq, Repr

/-- The update-capability-flags step at the end of the
`parse_protocol_info_sink` loop body: an `audio/flac` entry sets
`supports_flac` and raises the sample-rate/bit-depth maxima (defaults
44100/16 for absent values); an `audio/mpeg` entry sets `supports_mp3`. -/
def updateCaps (caps : DLNACapabilities) (e : SinkEntry) : DLNACapabilities :=
  if e.mime = "audio/flac" then
    { caps with
      supportsFlac := true
      maxSampleRate := max caps.maxSampleRate (e.sampleRate.getD 44100)
      maxBitDepth := max caps.maxBitDepth (e.bitDepth.getD 16) }
  else if e.mime = "audio/mpeg" then { caps with supportsMp3 := true }
  else caps

/-- The capability record built by `parse_protocol_info_sink` from the
parsed entries of a Sink string: fold the flag update over the entries,
starting from the dataclass defaults. -/
def parse_protocol_info_sink (entries : List SinkEntry) : DLNACapabilities :=
  entries.foldl updateCaps {}

end Capabilities

namespace CommandHandler

/-- The `protocol_to_quality` dict lookup in
`_handle_set_max_audio_quality`: `{1: 5, 2: 6, 3: 7, 4: 27}.get(p, 27)`. -/
def protocolToQuality (protoQuality : Nat) : Nat :=
  match protoQuality with
  | 1 => 5
  | 2 => 6
  | 3 => 7
  | 4 => 27
  | _ => 27

/-- The `_handle_set_max_audio_quality` method: returns the quality id the
`on_quality_change` callback is invoked with, or `none` when the message
lacks the `srvrRndrSetMaxAudioQuality` field or no callback is
registered. -/
def handle_set_max_audio_quality (hasField callbackSet : Bool) (protoQuality : Nat) :
    Option Nat :=
  if !hasField then none
  else if callbackSet then some (protocolToQuality protoQuality) else none

end CommandHandler

namespace Protocol

theorem varintEncodeAux_ne_nil (fuel n : Nat) : varintEncodeAux fuel n ≠ [] := by
  cases fuel with
  | zero => simp [varintEncodeAux]
  | succ f =>
    unfold varintEncodeAux
    split <;> simp

theorem varintEncode_ne_nil (n : Nat) : varintEncode n ≠ [] :=
  varintEncodeAux_ne_nil n n

theorem pNatAux_encodeAux (fuel : Nat) :
    ∀ n shift acc r, n ≤ fuel →
      pNatAux (varintEncodeAux fuel n ++ r) shift acc = some (acc + n * 2 ^ shift, r) := by
  induction fuel with
  | zero =>
    intro n shift acc r hn
    have h0 : n = 0 := Nat.le_zero.mp hn
    subst h0
    simp [varintEncodeAux, pNatAux]
  | succ f ih =>
    intro n shift acc r hn
    unfold varintEncodeAux
    split
    · rename_i hbig
      have hb : ¬(n % 128 + 128 < 128) := by omega
      have hfuel : n / 128 ≤ f := by
        have := Nat.div_lt_self (by omega : 0 < n) (by omega : 1 < 128)
        omega
      simp only [List.cons_append, pNatAux, hb, if_false, List.append_eq]
      rw [ih (n / 128) (shift + 7) _ r hfuel]
      have hmod : (n % 128 + 128) % 128 = n % 128 := by omega
      have hpow : 2 ^ (shift + 7) = 2 ^ shift * 128 := by
        rw [pow_add]; norm_num
      have hsplit : n % 128 + 128 * (n / 128) = n := Nat.mod_add_div n 128
      rw [hmod, hpow]
      have hcomb : n % 128 * 2 ^ shift + n / 128 * (2 ^ shift * 128) = n * 2 ^ shift := by
        calc n % 128 * 2 ^ shift + n / 128 * (2 ^ shift * 128)
            = (n % 128 + 128 * (n / 128)) * 2 ^ shift := by ring
          _ = n * 2 ^ shift := by rw [hsplit]
      rw [Nat.add_assoc, hcomb]
    · rename_i hsmall
      have hlt : n < 128 := by omega
      have hmod : n % 128 = n := Nat.mod_eq_of_lt hlt
      simp [pNatAux, hlt, hmod]

theorem pNat_encode (n : Nat) (r : Bytes) : pNat (varintEncode n ++ r) = some (n, r) := by
  unfold pNat varintEncode
  rw [pNatAux_encodeAux n n 0 0 r (le_refl n)]
  simp

theorem pNat_encode_nil (n : Nat) : pNat (varintEncode n) = some (n, []) := by
  have h := pNat_encode n []
  rwa [List.append_nil] at h

theorem pBytes_encode (b : Bytes) (r : Bytes) : pBytes (bytesEnc b ++ r) = some (b, r) := by
  unfold pBytes bytesEnc
  rw [List.append_assoc]
  simp only [pNat_encode]
  rw [if_pos (by simp)]
  simp [List.take_left, List.drop_left]

theorem pBytes_encode_nil (b : Bytes) : pBytes (bytesEnc b) = some (b, []) := by
  have h := pBytes_encode b []
  rwa [List.append_nil] at h

theorem pBytesListAux_encode (bs : List Bytes) (r : Bytes) :
    pBytesListAux bs.length ((bs.map bytesEnc).flatten ++ r) = some (bs, r) := by
  induction bs generalizing r with
  | nil => simp [pBytesListAux]
  | cons b rest ih =>
    simp only [List.map_cons, List.flatten_cons, List.length_cons, List.append_assoc]
    unfold pBytesListAux
    simp only [pBytes_encode, ih r]

theorem pBytesList_encode (bs : List Bytes) (r : Bytes) :
    pBytesList (listEnc bs ++ r) = some (bs, r) := by
  unfold pBytesList listEnc
  rw [List.append_assoc]
  simp only [pNat_encode]
  exact pBytesListAux_encode bs r

theorem pBytesList_encode_nil (bs : List Bytes) : pBytesList (listEnc bs) = some (bs, []) := by
  have h := pBytesList_encode bs []
  rwa [List.append_nil] at h

theorem authenticate_parse_serialize (m : AuthenticateMsg) :
    AuthenticateMsg.parse m.serialize = some m := by
  unfold AuthenticateMsg.serialize AuthenticateMsg.parse
  simp only [List.append_assoc, pNat_encode, pBytes_encode_nil]
  simp

theorem subscribe_parse_serialize (m : SubscribeMsg) :
    SubscribeMsg.parse m.serialize = some m := by
  unfold SubscribeMsg.serialize SubscribeMsg.parse
  simp only [List.append_assoc, pNat_encode, pBytesList_encode_nil]
  simp

theorem payload_parse_serialize (m : PayloadMsg) :
    PayloadMsg.parse m.serialize = some m := by
  unfold PayloadMsg.serialize PayloadMsg.parse
  simp only [List.append_assoc, pNat_encode, pBytes_encode, pBytesList_encode,
    pBytes_encode_nil]
  simp

theorem error_parse_serialize (m : ErrorMsg) :
    ErrorMsg.parse m.serialize = some m := by
  unfold ErrorMsg.serialize ErrorMsg.parse
  simp only [List.append_assoc, pNat_encode, pBytes_encode_nil]
  simp

theorem disconnect_parse_serialize (m : DisconnectMsg) :
    DisconnectMsg.parse m.serialize = some m := by
  unfold DisconnectMsg.serialize DisconnectMsg.parse
  simp only [pNat_encode_nil]
  simp

theorem packFrame_length_ge (tb : Nat) (body : Bytes) : ¬(packFrame tb body).length < 2 := by
  have h := varintEncode_ne_nil body.length
  have hpos : 0 < (varintEncode body.length).length := List.length_pos.mpr h
  simp only [packFrame, List.length_cons, List.length_append]
  omega

theorem decode_frame_packFrame (tb : Nat) (t : MessageType) (body : Bytes)
    (ht : msgTypeOfByte tb = some t) :
    decode_frame (packFrame tb body) = some (decode_by_type t body) := by
  unfold decode_frame
  rw [if_neg (packFrame_length_ge tb body)]
  have hhead : (packFrame tb body).headD 0 = tb := rfl
  have hdrop : (packFrame tb body).drop 1 = varintEncode body.length ++ body := rfl
  rw [hhead, ht, hdrop]
  simp only [pNat_encode, List.take_length]

theorem frameMsgId_packFrame_payload (m : PayloadMsg) :
    frameMsgId (packFrame 6 m.serialize) = some m.msgId := by
  unfold frameMsgId
  rw [if_neg (packFrame_length_ge 6 m.serialize)]
  have hhead : (packFrame 6 m.serialize).headD 0 = 6 := rfl
  have ht : msgTypeOfByte 6 = some .payload := rfl
  have hdrop : (packFrame 6 m.serialize).drop 1 =
      varintEncode m.serialize.length ++ m.serialize := rfl
  rw [hhead, ht, hdrop]
  simp only [pNat_encode, List.take_length, payload_parse_serialize, Option.map_some']

theorem frameMsgId_packFrame_auth (m : AuthenticateMsg) :
    frameMsgId (packFrame 1 m.serialize) = some m.msgId := by
  unfold frameMsgId
  rw [if_neg (packFrame_length_ge 1 m.serialize)]
  have hhead : (packFrame 1 m.serialize).headD 0 = 1 := rfl
  have ht : msgTypeOfByte 1 = some .authenticate := rfl
  have hdrop : (packFrame 1 m.serialize).drop 1 =
      varintEncode m.serialize.length ++ m.serialize := rfl
  rw [hhead, ht, hdrop]
  simp only [pNat_encode, List.take_length, authenticate_parse_serialize, Option.map_some']

theorem frameMsgId_packFrame_sub (m : SubscribeMsg) :
    frameMsgId (packFrame 2 m.serialize) = some m.msgId := by
  unfold frameMsgId
  rw [if_neg (packFrame_length_ge 2 m.serialize)]
  have hhead : (packFrame 2 m.serialize).headD 0 = 2 := rfl
  have ht : msgTypeOfByte 2 = some .subscribe := rfl
  have hdrop : (packFrame 2 m.serialize).drop 1 =
      varintEncode m.serialize.length ++ m.serialize := rfl
  rw [hhead, ht, hdrop]
  simp only [pNat_encode, List.take_length, subscribe_parse_serialize, Option.map_some']

end Protocol

namespace Protocol

theorem runCall_msgId (c : Codec) (nowMs : Nat) (call : EncodeCall) :
    frameMsgId (runCall c nowMs call).1 =
      some (c.msgCounter + (if call.isCompound then 2 else 1)) ∧
    (runCall c nowMs call).2.msgCounter =
      c.msgCounter + (if call.isCompound then 2 else 1) := by
  cases call <;>
    refine ⟨?_, ?_⟩ <;>
      simp [runCall, encode_authenticate, encode_subscribe, encode_payload,
        encode_state_update, encode_join_session, encode_volume_changed,
        encode_file_audio_quality_changed, encode_device_audio_quality_changed,
        encode_max_audio_quality_changed, nextMsgId, MessageType.toByte,
        EncodeCall.isCompound, frameMsgId_packFrame_auth, frameMsgId_packFrame_sub,
        frameMsgId_packFrame_payload]

theorem runCalls_emitted (nowMs : Nat) (calls : List EncodeCall) :
    ∀ c : Codec,
      emittedOuterMsgIds c nowMs calls = (expectedOuterMsgIds c.msgCounter calls).map some := by
  induction calls with
  | nil => intro c; simp [emittedOuterMsgIds, runCalls, expectedOuterMsgIds]
  | cons call rest ih =>
    intro c
    obtain ⟨h1, h2⟩ := runCall_msgId c nowMs call
    rcases hrc : runCall c nowMs call with ⟨frame, c'⟩
    rw [hrc] at h1 h2
    have htail := ih c'
    simp only [emittedOuterMsgIds] at htail ⊢
    simp only [runCalls, hrc, List.map_cons, expectedOuterMsgIds]
    rw [h1, htail, h2]

theorem expected_chain (calls : List EncodeCall) :
    ∀ s, List.Chain' (· < ·) (expectedOuterMsgIds s calls) ∧
      ∀ x ∈ expectedOuterMsgIds s calls, s < x := by
  induction calls with
  | nil => intro s; simp [expectedOuterMsgIds]
  | cons call rest ih =>
    intro s
    obtain ⟨hc, hm⟩ := ih (s + (if call.isCompound then 2 else 1))
    have hstep : s < s + (if call.isCompound then 2 else 1) := by
      split <;> omega
    refine ⟨?_, ?_⟩
    · simp only [expectedOuterMsgIds]
      refine List.chain'_cons'.mpr ⟨?_, hc⟩
      intro y hy
      exact hm y (List.mem_of_mem_head? hy)
    · intro x hx
      simp only [expectedOuterMsgIds, List.mem_cons] at hx
      rcases hx with hx | hx
      · omega
      · exact lt_trans hstep (hm x hx)

end Protocol

/-- C1: the claim that decoding any encoder-produced frame returns the same
outer type and the same field values fails: `_decode_by_type` parses only
PAYLOAD (and ERROR/DISCONNECT) bodies, so an AUTHENTICATE frame whose
envelope carries `msg_id = 1` decodes to a `DecodedMessage` with the
default `msg_id = 0`. -/
theorem C1_counterexample :
    (Protocol.decode_frame (Protocol.encode_authenticate ⟨[], 0⟩ 1000 [74]).1).map
        Protocol.DecodedMessage.msgId = some 0 ∧
    Protocol.frameMsgId (Protocol.encode_authenticate ⟨[], 0⟩ 1000 [74]).1 = some 1 ∧
    (some 0 : Option Nat) ≠ some 1 :=
  ⟨rfl, rfl, by decide⟩

/-- C1 (amended): decoding an encoder-produced frame always returns the
encoded outer type; for PAYLOAD frames (produced by `encode_payload` and
every compound encoder) the decoded `msg_id`, `msg_date` and `payload`
equal the encoded values and the error fields are at their defaults; but
AUTHENTICATE and SUBSCRIBE frames decode to a `DecodedMessage` carrying
only the outer type, with all other fields at their default values. -/
theorem C1_roundtrip_amended (c : Protocol.Codec) (nowMs : Nat) (inner jwt sid : Bytes)
    (dests : List Bytes) :
    Protocol.decode_frame (Protocol.encode_payload c nowMs inner dests).1 =
      some { msgType := Protocol.MessageType.payload, msgId := c.msgCounter + 1,
             msgDate := nowMs, payload := some inner } ∧
    Protocol.decode_frame (Protocol.encode_authenticate c nowMs jwt).1 =
      some { msgType := Protocol.MessageType.authenticate } ∧
    Protocol.decode_frame (Protocol.encode_subscribe c nowMs sid).1 =
      some { msgType := Protocol.MessageType.subscribe } := by
  refine ⟨?_, ?_, ?_⟩
  · simp only [Protocol.encode_payload, Protocol.nextMsgId, Protocol.MessageType.toByte]
    rw [Protocol.decode_frame_packFrame 6 Protocol.MessageType.payload _ rfl]
    simp [Protocol.decode_by_type, Protocol.payload_parse_serialize]
  · simp only [Protocol.encode_authenticate, Protocol.nextMsgId, Protocol.MessageType.toByte]
    rw [Protocol.decode_frame_packFrame 1 Protocol.MessageType.authenticate _ rfl]
    simp [Protocol.decode_by_type]
  · simp only [Protocol.encode_subscribe, Protocol.nextMsgId, Protocol.MessageType.toByte]
    rw [Protocol.decode_frame_packFrame 2 Protocol.MessageType.subscribe _ rfl]
    simp [Protocol.decode_by_type]

/-- C2: the claim that decode fails when the body fails structured parsing
is false: `_decode_by_type` catches the parse error and the frame
`[6, 1, 0x80]`, whose 1-byte PAYLOAD body `[0x80]` does not parse, is
still returned as a successfully decoded message (with default fields). -/
theorem C2_counterexample :
    Protocol.decode_frame [6, 1, 128] =
      some { msgType := Protocol.MessageType.payload } ∧
    Protocol.PayloadMsg.parse [128] = none :=
  ⟨rfl, rfl⟩

/-- C2 (amended): `decode_frame` fails exactly when the input is shorter
than two bytes, the type byte is not one of the six defined outer types,
or the length varint is incomplete; a body that fails structured parsing
is still returned as a `DecodedMessage` with default field values. -/
theorem C2_decode_failure_characterization (data : Bytes) :
    Protocol.decode_frame data = none ↔
      data.length < 2 ∨ Protocol.msgTypeOfByte (data.headD 0) = none ∨
        Protocol.pNat (data.drop 1) = none := by
  unfold Protocol.decode_frame
  split
  · rename_i h
    simp [h]
  · rename_i h
    cases hm : Protocol.msgTypeOfByte (data.headD 0) with
    | none => simp [h, hm]
    | some t =>
      cases hp : Protocol.pNat (data.drop 1) with
      | none => simp [h, hm, hp]
      | some v => cases v with | mk len rest => simp [h, hm, hp]

/-- C3: the claim that the n-th encoded frame carries outer `msg_id = n`
fails for the compound encoders: the very first `encode_state_update` call
on a fresh codec emits a frame whose outer `msg_id` is 2, because the
inner batch `messagesId` draws msg id 1 from the same counter first. -/
theorem C3_counterexample :
    Protocol.emittedOuterMsgIds ⟨[], 0⟩ 1000
        [Protocol.EncodeCall.stateUpdate 2 1 0 180000 1 1 0] = [some 2] ∧
    (some 2 : Option Nat) ≠ some 1 :=
  ⟨rfl, by decide⟩

/-- C3 (amended): over any sequence of encode calls on one codec instance,
the outer `msg_id` carried by each emitted frame equals the codec counter
reached after the call, where simple encoders (authenticate, subscribe,
payload) consume one id and the compound encoders (state update, join
session, volume changed, file/device/max audio quality changed) consume
two (the inner batch `messagesId` plus the outer id); consequently the
emitted outer msg ids are strictly increasing. -/
theorem C3_outer_msg_ids (c : Protocol.Codec) (nowMs : Nat)
    (calls : List Protocol.EncodeCall) :
    Protocol.emittedOuterMsgIds c nowMs calls =
      (Protocol.expectedOuterMsgIds c.msgCounter calls).map some ∧
    List.Chain' (· < ·) (Protocol.expectedOuterMsgIds c.msgCounter calls) :=
  ⟨Protocol.runCalls_emitted nowMs calls c, (Protocol.expected_chain calls c.msgCounter).1⟩

namespace Queue

theorem cons_set_perm (a : Nat) (t : List Nat) (m : Nat) (hm : m < t.length) :
    (t.getD m 0 :: t.set m a).Perm (a :: t) := by
  have hget : t.getD m 0 = t[m] := by
    simp [List.getD_eq_getElem?_getD, List.getElem?_eq_getElem hm]
  rw [hget, List.set_eq_take_cons_drop a hm]
  have hsplit : t.take m ++ t[m] :: t.drop (m + 1) = t := by
    rw [List.getElem_cons_drop, List.take_append_drop]
  refine List.Perm.trans (List.Perm.cons _ List.perm_middle) ?_
  refine List.Perm.trans (List.Perm.swap _ _ _) ?_
  refine List.Perm.trans (List.Perm.cons _ List.perm_middle.symm) ?_
  rw [hsplit]

theorem listSwap_perm (l : List Nat) : ∀ i j, i < l.length → j < l.length →
    (listSwap l i j).Perm l := by
  induction l with
  | nil => intro i j hi _; simp at hi
  | cons a t ih =>
    intro i j hi hj
    rcases i with _ | m <;> rcases j with _ | k
    · simp [listSwap]
    · have hk : k < t.length := by simpa using hj
      show (t.getD k 0 :: t.set k a).Perm (a :: t)
      exact cons_set_perm a t k hk
    · have hm : m < t.length := by simpa using hi
      show (t.getD m 0 :: t.set m a).Perm (a :: t)
      exact cons_set_perm a t m hm
    · have hm : m < t.length := by simpa using hi
      have hk : k < t.length := by simpa using hj
      show (a :: listSwap t m k).Perm (a :: t)
      exact List.Perm.cons a (ih m k hm hk)

theorem findTrackIndex_of_nodup (tracks : List QueueTrack) :
    ∀ (k : Nat) (tc : QueueTrack),
      (tracks.map QueueTrack.queueItemId).Nodup →
      tracks[k]? = some tc →
      findTrackIndex tracks tc.queueItemId = some k := by
  induction tracks with
  | nil => intro k tc _ hk; simp at hk
  | cons t rest ih =>
    intro k tc hnd hk
    rw [List.map_cons, List.nodup_cons] at hnd
    rcases k with _ | k
    · have heq : t = tc := by simpa using hk
      subst heq
      simp [findTrackIndex]
    · have hk' : rest[k]? = some tc := by simpa using hk
      have htcmem : tc ∈ rest := List.getElem?_mem hk'
      have hne2 : ¬t.queueItemId = tc.queueItemId := by
        intro heq
        exact hnd.1 (heq ▸ List.mem_map_of_mem QueueTrack.queueItemId htcmem)
      simp only [findTrackIndex, hne2, if_false, ih k tc hnd.2 hk', Option.map_some']

end Queue

/-- C4: enabling shuffle with the current track's `queue_item_id` as pivot
leaves the current track unchanged (the pivot is swapped back to the
cursor position), and the resulting `shuffled_indexes` is still a
permutation of `[0, n)`. -/
theorem C4_shuffle_pivot_preserves_current (st : Queue.QueueSt) (perm : List Nat)
    (tc : Queue.QueueTrack)
    (hperm : perm.Perm (List.range st.tracks.length))
    (hci : st.currentIndex < st.tracks.length)
    (hcur : Queue.getCurrentTrack st = some tc)
    (hnodup : (st.tracks.map Queue.QueueTrack.queueItemId).Nodup) :
    Queue.getCurrentTrack (Queue.set_shuffle st true (some tc.queueItemId) perm) = some tc ∧
    (Queue.set_shuffle st true (some tc.queueItemId) perm).shuffledIndexes.Perm
      (List.range st.tracks.length) := by
  have hn : 0 < st.tracks.length := by omega
  have hne : st.tracks ≠ [] := List.ne_nil_of_length_pos hn
  have hemp : st.tracks.isEmpty = false := by
    simp [List.isEmpty_iff, hne]
  obtain ⟨k, hidx, htk⟩ := Option.bind_eq_some.mp hcur
  have hsk : st.shuffledIndexes[st.currentIndex]? = some k := by
    unfold Queue.getCurrentTrackIndex at hidx
    split at hidx
    · simp at hidx
    · exact hidx
  have hk_lt : k < st.tracks.length := (List.getElem?_eq_some.mp htk).1
  have hfind : Queue.findTrackIndex st.tracks tc.queueItemId = some k :=
    Queue.findTrackIndex_of_nodup st.tracks k tc hnodup htk
  have hplen : perm.length = st.tracks.length := by simpa using hperm.length_eq
  have hkmem : k ∈ perm := by
    rw [hperm.mem_iff]
    simpa using hk_lt
  have hpp_lt : perm.indexOf k < perm.length := List.indexOf_lt_length.mpr hkmem
  have hpp : perm[perm.indexOf k] = k := List.getElem_indexOf hpp_lt
  have hmin : min st.currentIndex (perm.length - 1) = st.currentIndex := by omega
  have hciperm : st.currentIndex < perm.length := by omega
  have hresult :
      Queue.set_shuffle st true (some tc.queueItemId) perm =
        { st with shuffleEnabled := true,
                  shuffledIndexes := Queue.listSwap perm st.currentIndex (perm.indexOf k) } := by
    simp [Queue.set_shuffle, Queue.apply_shuffle, hemp, hfind, hmin]
  have hLperm : (Queue.listSwap perm st.currentIndex (perm.indexOf k)).Perm
      (List.range st.tracks.length) :=
    (Queue.listSwap_perm perm st.currentIndex (perm.indexOf k) hciperm hpp_lt).trans hperm
  have hgetDpp : perm.getD (perm.indexOf k) 0 = k := by
    simp [List.getD_eq_getElem?_getD, List.getElem?_eq_getElem hpp_lt, hpp]
  have hLci : (Queue.listSwap perm st.currentIndex (perm.indexOf k))[st.currentIndex]? =
      some k := by
    unfold Queue.listSwap
    rw [hgetDpp]
    by_cases hppci : perm.indexOf k = st.currentIndex
    · rw [hppci] at hgetDpp ⊢
      rw [hgetDpp]
      rw [List.getElem?_set_self (by simpa using hciperm)]
    · rw [List.getElem?_set_ne hppci, List.getElem?_set_self hciperm]
  constructor
  · rw [hresult]
    unfold Queue.getCurrentTrack Queue.getCurrentTrackIndex
    have hLlen : (Queue.listSwap perm st.currentIndex (perm.indexOf k)).length = perm.length := by
      simp [Queue.listSwap]
    have hLne : (Queue.listSwap perm st.currentIndex (perm.indexOf k)).isEmpty = false := by
      simp [List.isEmpty_iff]
      exact List.ne_nil_of_length_pos (by omega)
    simp only [hemp, hLne, Bool.or_self, Bool.false_or, if_false]
    simp [hLci, htk]
  · rw [hresult]
    exact hLperm

/-- C4 witness: a two-track queue with the cursor on track B's predecessor
A, shuffled with the drawn permutation `[1, 0]` and pivot 1, keeps track A
current and keeps a permutation of `[0, 2)`. -/
theorem C4_witness :
    Queue.getCurrentTrack
        (Queue.set_shuffle
          { tracks := [{ queueItemId := 1, trackId := "A" }, { queueItemId := 2, trackId := "B" }],
            originalOrder := [0, 1], shuffledIndexes := [0, 1], currentIndex := 0,
            shuffleEnabled := false, repeatMode := Queue.RepeatMode.off }
          true (some 1) [1, 0]) =
      some { queueItemId := 1, trackId := "A" } ∧
    (Queue.set_shuffle
        { tracks := [{ queueItemId := 1, trackId := "A" }, { queueItemId := 2, trackId := "B" }],
          originalOrder := [0, 1], shuffledIndexes := [0, 1], currentIndex := 0,
          shuffleEnabled := false, repeatMode := Queue.RepeatMode.off }
        true (some 1) [1, 0]).shuffledIndexes.Perm (List.range 2) :=
  C4_shuffle_pivot_preserves_current _ [1, 0] { queueItemId := 1, trackId := "A" }
    (by decide) (by decide) (by decide) (by decide)

/-- C5: repeat-mode navigation. Under repeat `one` both `advance_to_next`
and `go_to_previous` return the current track without moving the cursor;
under repeat `all` advancing at the last position wraps the cursor to 0 and
going back at position 0 wraps to the last position; under repeat `off`
advancing at the last position returns nothing with the cursor unchanged,
while going back at position 0 returns the current (first) track with the
cursor unchanged. -/
theorem C5_repeat_mode_navigation (st : Queue.QueueSt)
    (hne : st.tracks ≠ [])
    (hlen : st.shuffledIndexes.length = st.tracks.length) :
    (st.repeatMode = Queue.RepeatMode.one →
      Queue.advance_to_next st = (Queue.getCurrentTrack st, st) ∧
      Queue.go_to_previous st = (Queue.getCurrentTrack st, st)) ∧
    (st.repeatMode = Queue.RepeatMode.all → st.currentIndex = st.tracks.length - 1 →
      Queue.advance_to_next st =
        (Queue.getCurrentTrack { st with currentIndex := 0 },
          { st with currentIndex := 0 })) ∧
    (st.repeatMode = Queue.RepeatMode.all → st.currentIndex = 0 →
      Queue.go_to_previous st =
        (Queue.getCurrentTrack { st with currentIndex := st.tracks.length - 1 },
          { st with currentIndex := st.tracks.length - 1 })) ∧
    (st.repeatMode = Queue.RepeatMode.off → st.currentIndex = st.tracks.length - 1 →
      Queue.advance_to_next st = (none, st)) ∧
    (st.repeatMode = Queue.RepeatMode.off → st.currentIndex = 0 →
      Queue.go_to_previous st = (Queue.getCurrentTrack st, st)) := by
  have hn : 0 < st.tracks.length := List.length_pos.mpr hne
  have hemp : st.tracks.isEmpty = false := by simp [List.isEmpty_iff, hne]
  refine ⟨?_, ?_, ?_, ?_, ?_⟩
  · intro h1
    constructor
    · simp [Queue.advance_to_next, hemp, h1]
    · simp [Queue.go_to_previous, hemp, h1]
  · intro hall hlast
    have hcond : st.currentIndex + 1 ≥ st.shuffledIndexes.length := by omega
    simp [Queue.advance_to_next, hemp, hall, hcond]
  · intro hall h0
    have hcond : ¬st.currentIndex > 0 := by omega
    simp [Queue.go_to_previous, hemp, hall, hcond, h0, hlen]
  · intro hoff hlast
    have hcond : st.currentIndex + 1 ≥ st.shuffledIndexes.length := by omega
    simp [Queue.advance_to_next, hemp, hoff, hcond]
  · intro hoff h0
    have hcond : ¬st.currentIndex > 0 := by omega
    simp [Queue.go_to_previous, hemp, hoff, hcond, h0]

/-- C5 witness: the five repeat-mode navigation facts instantiated on
concrete two-track queues. -/
theorem C5_witness :
    (Queue.advance_to_next
        { tracks := [{ queueItemId := 1, trackId := "A" }, { queueItemId := 2, trackId := "B" }],
          originalOrder := [0, 1], shuffledIndexes := [0, 1], currentIndex := 0,
          shuffleEnabled := false, repeatMode := Queue.RepeatMode.one } =
      (Queue.getCurrentTrack
          { tracks := [{ queueItemId := 1, trackId := "A" },
              { queueItemId := 2, trackId := "B" }],
            originalOrder := [0, 1], shuffledIndexes := [0, 1], currentIndex := 0,
            shuffleEnabled := false, repeatMode := Queue.RepeatMode.one },
        { tracks := [{ queueItemId := 1, trackId := "A" }, { queueItemId := 2, trackId := "B" }],
          originalOrder := [0, 1], shuffledIndexes := [0, 1], currentIndex := 0,
          shuffleEnabled := false, repeatMode := Queue.RepeatMode.one }) ∧
      Queue.go_to_previous
        { tracks := [{ queueItemId := 1, trackId := "A" }, { queueItemId := 2, trackId := "B" }],
          originalOrder := [0, 1], shuffledIndexes := [0, 1], currentIndex := 0,
          shuffleEnabled := false, repeatMode := Queue.RepeatMode.one } =
      (Queue.getCurrentTrack
          { tracks := [{ queueItemId := 1, trackId := "A" },
              { queueItemId := 2, trackId := "B" }],
            originalOrder := [0, 1], shuffledIndexes := [0, 1], currentIndex := 0,
            shuffleEnabled := false, repeatMode := Queue.RepeatMode.one },
        { tracks := [{ queueItemId := 1, trackId := "A" }, { queueItemId := 2, trackId := "B" }],
          originalOrder := [0, 1], shuffledIndexes := [0, 1], currentIndex := 0,
          shuffleEnabled := false, repeatMode := Queue.RepeatMode.one })) ∧
    Queue.advance_to_next
        { tracks := [{ queueItemId := 1, trackId := "A" }, { queueItemId := 2, trackId := "B" }],
          originalOrder := [0, 1], shuffledIndexes := [0, 1], currentIndex := 1,
          shuffleEnabled := false, repeatMode := Queue.RepeatMode.all } =
      (Queue.getCurrentTrack
          { tracks := [{ queueItemId := 1, trackId := "A" },
              { queueItemId := 2, trackId := "B" }],
            originalOrder := [0, 1], shuffledIndexes := [0, 1], currentIndex := 0,
            shuffleEnabled := false, repeatMode := Queue.RepeatMode.all },
        { tracks := [{ queueItemId := 1, trackId := "A" }, { queueItemId := 2, trackId := "B" }],
          originalOrder := [0, 1], shuffledIndexes := [0, 1], currentIndex := 0,
          shuffleEnabled := false, repeatMode := Queue.RepeatMode.all }) ∧
    Queue.go_to_previous
        { tracks := [{ queueItemId := 1, trackId := "A" }, { queueItemId := 2, trackId := "B" }],
          originalOrder := [0, 1], shuffledIndexes := [0, 1], currentIndex := 0,
          shuffleEnabled := false, repeatMode := Queue.RepeatMode.all } =
      (Queue.getCurrentTrack
          { tracks := [{ queueItemId := 1, trackId := "A" },
              { queueItemId := 2, trackId := "B" }],
            originalOrder := [0, 1], shuffledIndexes := [0, 1], currentIndex := 1,
            shuffleEnabled := false, repeatMode := Queue.RepeatMode.all },
        { tracks := [{ queueItemId := 1, trackId := "A" }, { queueItemId := 2, trackId := "B" }],
          originalOrder := [0, 1], shuffledIndexes := [0, 1], currentIndex := 1,
          shuffleEnabled := false, repeatMode := Queue.RepeatMode.all }) ∧
    Queue.advance_to_next
        { tracks := [{ queueItemId := 1, trackId := "A" }, { queueItemId := 2, trackId := "B" }],
          originalOrder := [0, 1], shuffledIndexes := [0, 1], currentIndex := 1,
          shuffleEnabled := false, repeatMode := Queue.RepeatMode.off } =
      (none,
        { tracks := [{ queueItemId := 1, trackId := "A" }, { queueItemId := 2, trackId := "B" }],
          originalOrder := [0, 1], shuffledIndexes := [0, 1], currentIndex := 1,
          shuffleEnabled := false, repeatMode := Queue.RepeatMode.off }) ∧
    Queue.go_to_previous
        { tracks := [{ queueItemId := 1, trackId := "A" }, { queueItemId := 2, trackId := "B" }],
          originalOrder := [0, 1], shuffledIndexes := [0, 1], currentIndex := 0,
          shuffleEnabled := false, repeatMode := Queue.RepeatMode.off } =
      (Queue.getCurrentTrack
          { tracks := [{ queueItemId := 1, trackId := "A" },
              { queueItemId := 2, trackId := "B" }],
            originalOrder := [0, 1], shuffledIndexes := [0, 1], currentIndex := 0,
            shuffleEnabled := false, repeatMode := Queue.RepeatMode.off },
        { tracks := [{ queueItemId := 1, trackId := "A" }, { queueItemId := 2, trackId := "B" }],
          originalOrder := [0, 1], shuffledIndexes := [0, 1], currentIndex := 0,
          shuffleEnabled := false, repeatMode := Queue.RepeatMode.off }) :=
  ⟨(C5_repeat_mode_navigation _ (by decide) (by decide)).1 rfl,
    (C5_repeat_mode_navigation _ (by decide) (by decide)).2.1 rfl rfl,
    (C5_repeat_mode_navigation _ (by decide) (by decide)).2.2.1 rfl rfl,
    (C5_repeat_mode_navigation _ (by decide) (by decide)).2.2.2.1 rfl rfl,
    (C5_repeat_mode_navigation _ (by decide) (by decide)).2.2.2.2 rfl rfl⟩

/-- C6: the claim that every non-stopped seek with a loaded track is
clamped and forwarded to the backend fails: with a loaded track in state
`playing` but `current_duration_ms = 0` (unknown duration), `seek` returns
`False` without asking the backend, leaving the anchor unchanged — a third
rejection condition the claim omits. -/
theorem C6_counterexample :
    Player.seek
        { state := Player.PlaybackState.playing,
          currentTrack := some { queueItemId := 1, trackId := "T" },
          currentDurationMs := 0, positionTimestampMs := 0, positionValueMs := 0 }
        5 100 true =
      (false,
        { state := Player.PlaybackState.playing,
          currentTrack := some { queueItemId := 1, trackId := "T" },
          currentDurationMs := 0, positionTimestampMs := 0, positionValueMs := 0 },
        { backendSeekMs := none, reportSent := false }) := rfl

/-- C6 (amended): `seek(position_ms)` is rejected — returning `False` with
no backend seek, no report, and an unchanged anchor — when the player is
stopped, when no current track is loaded, or additionally when the track
duration is unknown (`duration_ms <= 0`); otherwise the target is clamped
to `[0, duration_ms - 1000]` with lower bound 0, the backend is asked to
seek to the clamped value, the anchor becomes `(now, clamped)` and a state
report is sent immediately. -/
theorem C6_seek_amended (st : Player.PlayerSt) (nowMs positionMs : Int) :
    ((st.state = Player.PlaybackState.stopped ∨ st.currentTrack = none) →
      ∀ ok, Player.seek st nowMs positionMs ok =
        (false, st, { backendSeekMs := none, reportSent := false })) ∧
    (st.state ≠ Player.PlaybackState.stopped → st.currentTrack ≠ none →
      st.currentDurationMs ≤ 0 →
      ∀ ok, Player.seek st nowMs positionMs ok =
        (false, st, { backendSeekMs := none, reportSent := false })) ∧
    (st.state ≠ Player.PlaybackState.stopped → st.currentTrack ≠ none →
      0 < st.currentDurationMs →
      Player.seek st nowMs positionMs true =
        (true,
          { st with
            positionValueMs := max 0 (min positionMs (max 0 (st.currentDurationMs - 1000))),
            positionTimestampMs := nowMs },
          { backendSeekMs := some (max 0 (min positionMs (max 0 (st.currentDurationMs - 1000)))),
            reportSent := true })) := by
  refine ⟨?_, ?_, ?_⟩
  · rintro (h | h) ok <;> simp [Player.seek, h]
  · intro hs ht hd ok
    simp [Player.seek, hs, Option.isNone_iff_eq_none, ht, hd]
  · intro hs ht hd
    have hd2 : ¬st.currentDurationMs ≤ 0 := by omega
    simp [Player.seek, hs, Option.isNone_iff_eq_none, ht, hd2]

/-- C6 witness: the amended seek behavior at concrete states — a stopped
player rejects, a playing player with unknown duration rejects, and a
playing player with a 180 s track clamps a 200 s target to 179 s. -/
theorem C6_witness :
    Player.seek
        { state := Player.PlaybackState.stopped, currentTrack := none,
          currentDurationMs := 180000, positionTimestampMs := 0, positionValueMs := 0 }
        5 100 true =
      (false,
        { state := Player.PlaybackState.stopped, currentTrack := none,
          currentDurationMs := 180000, positionTimestampMs := 0, positionValueMs := 0 },
        { backendSeekMs := none, reportSent := false }) ∧
    Player.seek
        { state := Player.PlaybackState.paused,
          currentTrack := some { queueItemId := 1, trackId := "T" },
          currentDurationMs := 0, positionTimestampMs := 0, positionValueMs := 0 }
        5 100 false =
      (false,
        { state := Player.PlaybackState.paused,
          currentTrack := some { queueItemId := 1, trackId := "T" },
          currentDurationMs := 0, positionTimestampMs := 0, positionValueMs := 0 },
        { backendSeekMs := none, reportSent := false }) ∧
    Player.seek
        { state := Player.PlaybackState.playing,
          currentTrack := some { queueItemId := 1, trackId := "T" },
          currentDurationMs := 180000, positionTimestampMs := 0, positionValueMs := 0 }
        5 200000 true =
      (true,
        { state := Player.PlaybackState.playing,
          currentTrack := some { queueItemId := 1, trackId := "T" },
          currentDurationMs := 180000, positionTimestampMs := 5, positionValueMs := 179000 },
        { backendSeekMs := some 179000, reportSent := true }) :=
  ⟨(C6_seek_amended _ 5 100).1 (Or.inl rfl) true,
    (C6_seek_amended _ 5 100).2.1 (by decide) (by decide) (by decide) false,
    (C6_seek_amended _ 5 200000).2.2 (by decide) (by decide) (by decide)⟩

namespace Metadata

theorem foldl_invalidate_entries (ks : List String) :
    ∀ c : MetadataCache,
      (ks.foldl invalidate_url c).entries =
        c.entries.map (fun e =>
          if e.1 ∈ ks then (e.1, { e.2 with streamingUrl := "", streamingUrlExpiresAt := 0 })
          else e) := by
  induction ks with
  | nil =>
    intro c
    simp
  | cons k ks ih =>
    intro c
    rw [List.foldl_cons, ih (invalidate_url c k)]
    simp only [invalidate_url, List.map_map]
    refine List.map_congr_left ?_
    intro e _
    by_cases h1 : e.1 = k <;> by_cases h2 : e.1 ∈ ks <;>
      simp [Function.comp, h1, h2, List.mem_cons]

end Metadata

/-- C7: the claim that `set_max_quality(q)` clears cached streaming URLs
for every quality id q fails when q equals the current max quality: the
method only invalidates on an actual change, so calling it with the
current value leaves a cached URL in place. -/
theorem C7_counterexample :
    Metadata.set_max_quality
        { maxQuality := 27,
          cache := ⟨[("t1",
            { trackId := "t1", title := "T", streamingUrl := "u",
              streamingUrlExpiresAt := 99 })]⟩ }
        27 =
      { maxQuality := 27,
        cache := ⟨[("t1",
          { trackId := "t1", title := "T", streamingUrl := "u",
            streamingUrlExpiresAt := 99 })]⟩ } ∧
    "u" ≠ "" :=
  ⟨rfl, by decide⟩

/-- C7 (amended): when q differs from the current max quality,
`set_max_quality(q)` stores q and blanks the streaming URL and its expiry
timestamp of every cached entry while keeping every other field, every key
and the entry order (no entry is removed); when q equals the current max
quality the call changes nothing. -/
theorem C7_set_max_quality (st : Metadata.MetadataServiceSt) (q : Nat) :
    (q ≠ st.maxQuality →
      (Metadata.set_max_quality st q).maxQuality = q ∧
      (Metadata.set_max_quality st q).cache.entries =
        st.cache.entries.map (fun e =>
          (e.1, { e.2 with streamingUrl := "", streamingUrlExpiresAt := 0 }))) ∧
    (q = st.maxQuality → Metadata.set_max_quality st q = st) := by
  constructor
  · intro hq
    unfold Metadata.set_max_quality
    rw [if_pos hq]
    refine ⟨rfl, ?_⟩
    rw [Metadata.foldl_invalidate_entries]
    refine List.map_congr_left ?_
    intro e he
    rw [if_pos (List.mem_map_of_mem Prod.fst he)]
  · intro hq
    unfold Metadata.set_max_quality
    rw [if_neg (by simp [hq])]

/-- C7 witness: changing the max quality from 27 to 6 on a one-entry cache
blanks the URL and expiry but keeps the title; setting 27 again is a
no-op. -/
theorem C7_witness :
    ((Metadata.set_max_quality
        { maxQuality := 27,
          cache := ⟨[("t1",
            { trackId := "t1", title := "T", streamingUrl := "u",
              streamingUrlExpiresAt := 99 })]⟩ }
        6).maxQuality = 6 ∧
      (Metadata.set_max_quality
        { maxQuality := 27,
          cache := ⟨[("t1",
            { trackId := "t1", title := "T", streamingUrl := "u",
              streamingUrlExpiresAt := 99 })]⟩ }
        6).cache.entries =
        [("t1",
          { trackId := "t1", title := "T", streamingUrl := "",
            streamingUrlExpiresAt := 0 })]) ∧
    Metadata.set_max_quality
        { maxQuality := 27,
          cache := ⟨[("t1",
            { trackId := "t1", title := "T", streamingUrl := "u",
              streamingUrlExpiresAt := 99 })]⟩ }
        27 =
      { maxQuality := 27,
        cache := ⟨[("t1",
          { trackId := "t1", title := "T", streamingUrl := "u",
            streamingUrlExpiresAt := 99 })]⟩ } :=
  ⟨(C7_set_max_quality _ 6).1 (by decide), (C7_set_max_quality _ 27).2 rfl⟩

/-- C8: the audio handler's behavior per request. An unregistered track id
gets a 404. A registered track whose stored URL is at least 240 s old
(the default `url_max_age`) triggers a provider refresh before
forwarding — storing the fresh URL and fetch time — and a failing refresh
yields a 502 with nothing stored. A registered track younger than 240 s is
forwarded as-is, independently of the provider (no refresh attempted) and
with the server state unchanged. -/
theorem C8_handle_audio (srv : Proxy.ProxyServerSt) (nowS : Int) (trackId : String)
    (h240 : srv.urlMaxAge = 240) :
    (Proxy.lookupTrack srv.tracks trackId = none →
      ∀ r, Proxy.handle_audio srv nowS trackId r = (Proxy.AudioResponse.notFound, srv) ∧
        ((Proxy.handle_audio srv nowS trackId r).1).statusCode = some 404) ∧
    (∀ t, Proxy.lookupTrack srv.tracks trackId = some t →
      nowS - t.urlFetchedAt ≥ 240 →
      (∀ u, Proxy.handle_audio srv nowS trackId (some u) =
        (Proxy.AudioResponse.forwarded { t with qobuzUrl := u, urlFetchedAt := nowS },
          { srv with tracks := srv.tracks.map (fun e =>
              if e.1 = trackId then (e.1, { t with qobuzUrl := u, urlFetchedAt := nowS })
              else e) })) ∧
      (Proxy.handle_audio srv nowS trackId none = (Proxy.AudioResponse.badGateway, srv) ∧
        ((Proxy.handle_audio srv nowS trackId none).1).statusCode = some 502)) ∧
    (∀ t, Proxy.lookupTrack srv.tracks trackId = some t →
      nowS - t.urlFetchedAt < 240 →
      ∀ r, Proxy.handle_audio srv nowS trackId r = (Proxy.AudioResponse.forwarded t, srv)) := by
  refine ⟨?_, ?_, ?_⟩
  · intro hlook r
    constructor
    · simp [Proxy.handle_audio, hlook]
    · simp [Proxy.handle_audio, hlook, Proxy.AudioResponse.statusCode]
  · intro t hlook hexp
    have hcond : Proxy.is_url_expired t nowS srv.urlMaxAge = true := by
      simp [Proxy.is_url_expired, h240]
      omega
    constructor
    · intro u
      simp [Proxy.handle_audio, hlook, hcond]
    · constructor
      · simp [Proxy.handle_audio, hlook, hcond]
      · simp [Proxy.handle_audio, hlook, hcond, Proxy.AudioResponse.statusCode]
  · intro t hlook hfresh r
    have hcond : Proxy.is_url_expired t nowS srv.urlMaxAge = false := by
      simp [Proxy.is_url_expired, h240]
      omega
    simp [Proxy.handle_audio, hlook, hcond]

/-- C8 witness: on a server with one track fetched at time 0 and
`url_max_age = 240`, a request at 300 s with a successful refresh forwards
the fresh URL and stores it, a request at 300 s with a failing refresh
gives 502, a request at 100 s forwards unchanged, and an unknown id gives
404. -/
theorem C8_witness :
    Proxy.handle_audio
        { urlMaxAge := 240,
          tracks := [("t1",
            { trackId := "t1", qobuzUrl := "u1", contentType := "audio/flac",
              urlFetchedAt := 0 })] }
        300 "t1" (some "u2") =
      (Proxy.AudioResponse.forwarded
          { trackId := "t1", qobuzUrl := "u2", contentType := "audio/flac",
            urlFetchedAt := 300 },
        { urlMaxAge := 240,
          tracks := [("t1",
            { trackId := "t1", qobuzUrl := "u2", contentType := "audio/flac",
              urlFetchedAt := 300 })] }) ∧
    Proxy.handle_audio
        { urlMaxAge := 240,
          tracks := [("t1",
            { trackId := "t1", qobuzUrl := "u1", contentType := "audio/flac",
              urlFetchedAt := 0 })] }
        300 "t1" none =
      (Proxy.AudioResponse.badGateway,
        { urlMaxAge := 240,
          tracks := [("t1",
            { trackId := "t1", qobuzUrl := "u1", contentType := "audio/flac",
              urlFetchedAt := 0 })] }) ∧
    Proxy.handle_audio
        { urlMaxAge := 240,
          tracks := [("t1",
            { trackId := "t1", qobuzUrl := "u1", contentType := "audio/flac",
              urlFetchedAt := 0 })] }
        100 "t1" (some "u2") =
      (Proxy.AudioResponse.forwarded
          { trackId := "t1", qobuzUrl := "u1", contentType := "audio/flac",
            urlFetchedAt := 0 },
        { urlMaxAge := 240,
          tracks := [("t1",
            { trackId := "t1", qobuzUrl := "u1", contentType := "audio/flac",
              urlFetchedAt := 0 })] }) ∧
    Proxy.handle_audio
        { urlMaxAge := 240,
          tracks := [("t1",
            { trackId := "t1", qobuzUrl := "u1", contentType := "audio/flac",
              urlFetchedAt := 0 })] }
        300 "zz" (some "u2") =
      (Proxy.AudioResponse.notFound,
        { urlMaxAge := 240,
          tracks := [("t1",
            { trackId := "t1", qobuzUrl := "u1", contentType := "audio/flac",
              urlFetchedAt := 0 })] }) :=
  ⟨((C8_handle_audio _ 300 "t1" rfl).2.1
      { trackId := "t1", qobuzUrl := "u1", contentType := "audio/flac", urlFetchedAt := 0 }
      (by decide) (by decide)).1 "u2",
    ((C8_handle_audio _ 300 "t1" rfl).2.1
      { trackId := "t1", qobuzUrl := "u1", contentType := "audio/flac", urlFetchedAt := 0 }
      (by decide) (by decide)).2.1,
    (C8_handle_audio _ 100 "t1" rfl).2.2
      { trackId := "t1", qobuzUrl := "u1", contentType := "audio/flac", urlFetchedAt := 0 }
      (by decide) (by decide) (some "u2"),
    ((C8_handle_audio _ 300 "zz" rfl).1 (by decide) (some "u2")).1⟩

namespace Capabilities

theorem foldl_updateCaps_no_flac (entries : List SinkEntry) :
    ∀ c : DLNACapabilities,
      (c.supportsFlac = false → c.maxSampleRate = 44100 ∧ c.maxBitDepth = 16) →
      ((entries.foldl updateCaps c).supportsFlac = false →
        (entries.foldl updateCaps c).maxSampleRate = 44100 ∧
        (entries.foldl updateCaps c).maxBitDepth = 16) := by
  induction entries with
  | nil => intro c hc; exact hc
  | cons e rest ih =>
    intro c hc
    rw [List.foldl_cons]
    refine ih (updateCaps c e) ?_
    intro hflac
    by_cases h1 : e.mime = "audio/flac"
    · exfalso
      unfold updateCaps at hflac
      rw [if_pos h1] at hflac
      simp at hflac
    · by_cases h2 : e.mime = "audio/mpeg"
      · unfold updateCaps at hflac ⊢
        rw [if_neg h1, if_pos h2] at hflac ⊢
        exact hc hflac
      · unfold updateCaps at hflac ⊢
        rw [if_neg h1, if_neg h2] at hflac ⊢
        exact hc hflac

end Capabilities

/-- C9: the derived `max_quality_id` of a capability record built by
`parse_protocol_info_sink`: 5 when the device does not support FLAC; 6
when it supports FLAC but `max_bit_depth <= 16` or
`max_sample_rate <= 44100`; 7 when `max_bit_depth >= 24` and
`96000 <= max_sample_rate < 192000`; 27 when `max_bit_depth >= 24` and
`max_sample_rate >= 192000` (a 24-bit record necessarily supports FLAC,
since only `audio/flac` entries raise the bit-depth above its default
16). -/
theorem C9_max_quality_mapping (entries : List Capabilities.SinkEntry) :
    ((Capabilities.parse_protocol_info_sink entries).supportsFlac = false →
      Capabilities.max_quality (Capabilities.parse_protocol_info_sink entries) = 5) ∧
    ((Capabilities.parse_protocol_info_sink entries).supportsFlac = true →
      ((Capabilities.parse_protocol_info_sink entries).maxBitDepth ≤ 16 ∨
        (Capabilities.parse_protocol_info_sink entries).maxSampleRate ≤ 44100) →
      Capabilities.max_quality (Capabilities.parse_protocol_info_sink entries) = 6) ∧
    ((Capabilities.parse_protocol_info_sink entries).maxBitDepth ≥ 24 →
      (Capabilities.parse_protocol_info_sink entries).maxSampleRate ≥ 96000 →
      (Capabilities.parse_protocol_info_sink entries).maxSampleRate < 192000 →
      Capabilities.max_quality (Capabilities.parse_protocol_info_sink entries) = 7) ∧
    ((Capabilities.parse_protocol_info_sink entries).maxBitDepth ≥ 24 →
      (Capabilities.parse_protocol_info_sink entries).maxSampleRate ≥ 192000 →
      Capabilities.max_quality (Capabilities.parse_protocol_info_sink entries) = 27) := by
  have hinv : (Capabilities.parse_protocol_info_sink entries).supportsFlac = false →
      (Capabilities.parse_protocol_info_sink entries).maxSampleRate = 44100 ∧
      (Capabilities.parse_protocol_info_sink entries).maxBitDepth = 16 :=
    Capabilities.foldl_updateCaps_no_flac entries {} (fun _ => ⟨rfl, rfl⟩)
  refine ⟨?_, ?_, ?_, ?_⟩
  · intro hflac
    simp [Capabilities.max_quality, hflac]
  · intro hflac hlow
    unfold Capabilities.max_quality
    rw [if_neg (by simp [hflac]), if_neg (by omega), if_neg (by omega)]
  · intro hbd hsr hsr2
    have hflac : (Capabilities.parse_protocol_info_sink entries).supportsFlac = true := by
      by_contra h
      have := hinv (by simpa using h)
      omega
    unfold Capabilities.max_quality
    rw [if_neg (by simp [hflac]), if_neg (by omega), if_pos (by omega)]
  · intro hbd hsr
    have hflac : (Capabilities.parse_protocol_info_sink entries).supportsFlac = true := by
      by_contra h
      have := hinv (by simpa using h)
      omega
    unfold Capabilities.max_quality
    rw [if_neg (by simp [hflac]), if_pos (by omega)]

/-- C9 witness: a Sink with a single FLAC entry at 24-bit/96 kHz maps to
quality 7, one at 24-bit/192 kHz maps to 27, an MP3-only Sink maps to 5,
and a plain 16-bit/44.1 FLAC Sink maps to 6. -/
theorem C9_witness :
    Capabilities.max_quality
        (Capabilities.parse_protocol_info_sink
          [{ mime := "audio/flac", sampleRate := some 96000, bitDepth := some 24 }]) = 7 ∧
    Capabilities.max_quality
        (Capabilities.parse_protocol_info_sink
          [{ mime := "audio/flac", sampleRate := some 192000, bitDepth := some 24 }]) = 27 ∧
    Capabilities.max_quality
        (Capabilities.parse_protocol_info_sink
          [{ mime := "audio/mpeg", sampleRate := none, bitDepth := none }]) = 5 ∧
    Capabilities.max_quality
        (Capabilities.parse_protocol_info_sink
          [{ mime := "audio/flac", sampleRate := none, bitDepth := none }]) = 6 :=
  ⟨(C9_max_quality_mapping _).2.2.1 (by decide) (by decide) (by decide),
    (C9_max_quality_mapping _).2.2.2 (by decide) (by decide),
    (C9_max_quality_mapping _).1 (by decide),
    (C9_max_quality_mapping _).2.1 (by decide) (Or.inl (by decide))⟩

/-- C10: a SET_MAX_AUDIO_QUALITY command whose protocol quality value lies
outside {1, 2, 3, 4} is neither rejected nor dropped: the handler invokes
the quality-change callback with quality id 27, the default of the
protocol-to-quality mapping. -/
theorem C10_unknown_quality_defaults (p : Nat) (hp : p ∉ [1, 2, 3, 4]) :
    CommandHandler.handle_set_max_audio_quality true true p = some 27 := by
  rcases p with _ | _ | _ | _ | _ | p
  · rfl
  · simp at hp
  · simp at hp
  · simp at hp
  · simp at hp
  · rfl

/-- C10 witness: protocol value 5 (undefined) maps to quality id 27. -/
theorem C10_witness :
    CommandHandler.handle_set_max_audio_quality true true 5 = some 27 :=
  C10_unknown_quality_defaults 5 (by decide)
